import Mathlib

/-!
Shallow embedding of the pocker-cli process supervisor (src/index.ts).

The mutable world of one invocation is modelled explicitly:
`SupState.pidStore` is the set of on-disk pid files (name, pid), and
`SupState.handles` is the in-memory `childProcesses` map (the names that
hold a RuntimeHandle in this invocation).  OS interaction is modelled by
oracles: `alive : Nat → Bool` is the signal-0 liveness probe
(`isRunning`), `killOk : Nat → Bool` tells whether `process.kill(pid,
SIGTERM)` succeeds or throws, and `spawnPid : Option Nat` is the pid the
OS assigns at spawn (none models a spawn that yields no pid).  Console
output and signal sends are collected in a `Report` list.
-/

namespace Pocker

/-- An environment object, as an association list; JS object spread
semantics are modelled by `envOverride` together with first-match
lookup. -/
abbrev Env := List (String × String)

/-- Lookup in an environment: first matching key wins. -/
def envLookup (e : Env) (k : String) : Option String :=
  (e.find? (fun p => p.1 == k)).map Prod.snd

/-- JS object spread: entries of `over` shadow entries of `base`
(with first-match lookup, putting `over` in front realises
last-spread-wins). -/
def envOverride (base over : Env) : Env := over ++ base

/-- First-defined of two optional values (models which layer supplies a
key after a spread merge). -/
def optFirst (a b : Option String) : Option String :=
  match a with
  | some v => some v
  | none => b

/-- `commandsConfig[name]` entry: interface CommandConfig of
src/index.ts. -/
structure CommandConfig where
  command : String
  args : List String
  env : Env
  restart_on_fail : Bool
deriving Repr, DecidableEq

/-- The loaded configuration: global `env` plus the `commands` table. -/
structure Config where
  env : Env
  commands : List (String × CommandConfig)
deriving Repr, DecidableEq

/-- Lookup of `commandsConfig[name]`. -/
def cfgLookup (cfg : Config) (name : String) : Option CommandConfig :=
  (cfg.commands.find? (fun p => p.1 == name)).map Prod.snd

/-- `Object.keys(commandsConfig)`. -/
def configNames (cfg : Config) : List String := cfg.commands.map Prod.fst

/-- The layered environment merge computed at start (src/index.ts lines
141-145): system env spread first, then the global env, then the
process-level env. -/
def resolvedEnv (systemEnv globalEnv defEnv : Env) : Env :=
  envOverride (envOverride systemEnv globalEnv) defEnv

/-- A `\w` regex character: alphanumeric or underscore (ASCII model). -/
def isWordChar (c : Char) : Bool := c.isAlphanum || c == '_'

/-- The dollar sign character. -/
def dollarChar : Char := Char.ofNat 36

/-- The opening curly brace character. -/
def lbraceChar : Char := Char.ofNat 123

/-- The closing curly brace character. -/
def rbraceChar : Char := Char.ofNat 125

/-- One pass of `arg.replace(/\$\x7b(\w+)\x7d/g, (m, v) => envVars[v] || "")`
over the character list: a dollar followed by an open brace, one or more
word characters and a close brace is replaced by the looked-up value
(empty string when absent or empty); everything else is copied and the
scan advances one character. -/
def substCharsFuel (env : Env) : Nat → List Char → List Char
  | 0, l => l
  | _ + 1, [] => []
  | fuel + 1, c :: rest =>
    if c = dollarChar ∧ rest.head? = some lbraceChar then
      let nm := rest.tail.takeWhile isWordChar
      let after := rest.tail.dropWhile isWordChar
      if nm = [] ∨ after.head? ≠ some rbraceChar then c :: substCharsFuel env fuel rest
      else ((envLookup env (String.mk nm)).getD "").data ++
        substCharsFuel env fuel after.tail
    else c :: substCharsFuel env fuel rest

/-- The scan over a whole character list: each step consumes at least one
character, so fuel equal to the length always suffices. -/
def substChars (env : Env) (l : List Char) : List Char :=
  substCharsFuel env l.length l

/-- Template substitution applied to one argument string. -/
def substituteArg (env : Env) (arg : String) : String :=
  String.mk (substChars env arg.data)

/-- Template substitution applied to the argument list
(src/index.ts lines 147-152). -/
def substitutedArgs (env : Env) (args : List String) : List String :=
  args.map (substituteArg env)

/-- The on-disk pid files: one record per name. -/
abbrev PidStore := List (String × Nat)

/-- Read the pid file for a name (`none` models a missing file). -/
def storeLookup (s : PidStore) (n : String) : Option Nat :=
  (s.find? (fun p => p.1 == n)).map Prod.snd

/-- `fs.unlinkSync` of the pid file for a name (no-op when absent). -/
def storeRemove (s : PidStore) (n : String) : PidStore :=
  s.filter (fun p => p.1 != n)

/-- `fs.writeFileSync` of the pid file for a name (create or overwrite). -/
def storeWrite (s : PidStore) (n : String) (pid : Nat) : PidStore :=
  (n, pid) :: storeRemove s n

/-- `delete childProcesses[name]`. -/
def removeHandle (hs : List String) (n : String) : List String :=
  hs.filter (fun m => m != n)

/-- `childProcesses[name] = child`. -/
def addHandle (hs : List String) (n : String) : List String :=
  n :: removeHandle hs n

/-- The mutable world of one invocation: the pid files on disk and the
names in the in-memory `childProcesses` map (RuntimeHandles). -/
structure SupState where
  pidStore : PidStore
  handles : List String
deriving Repr, DecidableEq

/-- Console output and OS side effects of one operation, in order. -/
inductive Report where
  | unknownCommand (name : String)
  | alreadyRunning (name : String)
  | spawned (command : String) (args : List String) (detach : Bool)
  | started (name : String) (pid : Nat)
  | startFailed (name : String)
  | exited (name : String) (code : Option Int) (sig : Option String)
  | restarting (name : String)
  | killAttempt (pid : Nat)
  | stopped (name : String) (pid : Nat)
  | stopError (name : String) (pid : Nat)
  | handleKill (name : String)
  | notRunning (name : String)
  | shuttingDown
deriving Repr, DecidableEq

/-- `isProcessRunning` (src/index.ts lines 194-205): read the pid file;
when it exists and the pid answers the liveness probe, report true; when
it exists but the pid is dead, unlink the stale file (self-healing) and
report false; when absent, report false.  Returns the flag together with
the pid store after any healing. -/
def isProcessRunning (alive : Nat → Bool) (s : PidStore) (n : String) :
    Bool × PidStore :=
  match storeLookup s n with
  | none => (false, s)
  | some pid => if alive pid then (true, s) else (false, storeRemove s n)

/-- `startProcess` (src/index.ts lines 123-192): unknown name is a
per-name error; a held RuntimeHandle or a live pid file makes the start a
rejected no-op; otherwise the environment is resolved, the arguments
substituted, the process spawned (the handle is recorded before the pid
check), and the pid file written only when the OS produced a pid. -/
def startProcess (cfg : Config) (systemEnv : Env) (alive : Nat → Bool)
    (spawnPid : Option Nat) (detach : Bool) (name : String) (st : SupState) :
    SupState × List Report :=
  match cfgLookup cfg name with
  | none => (st, [Report.unknownCommand name])
  | some cmdConfig =>
    if st.handles.contains name then (st, [Report.alreadyRunning name])
    else
      match isProcessRunning alive st.pidStore name with
      | (true, s1) => ({ st with pidStore := s1 }, [Report.alreadyRunning name])
      | (false, s1) =>
        let envVars := resolvedEnv systemEnv cfg.env cmdConfig.env
        let args := substitutedArgs envVars cmdConfig.args
        let st1 : SupState := { pidStore := s1, handles := addHandle st.handles name }
        match spawnPid with
        | some pid =>
          ({ st1 with pidStore := storeWrite st1.pidStore name pid },
           [Report.spawned cmdConfig.command args detach, Report.started name pid])
        | none =>
          (st1, [Report.spawned cmdConfig.command args detach,
                 Report.startFailed name])

/-- The batch loop of `startProcesses` (src/index.ts lines 104-110): each
name started independently, in order; `spawnOf` gives the pid the OS
assigns for each name's spawn. -/
def startList (cfg : Config) (systemEnv : Env) (alive : Nat → Bool)
    (spawnOf : String → Option Nat) (detach : Bool) :
    List String → SupState → SupState × List Report
  | [], st => (st, [])
  | n :: rest, st =>
    let p1 := startProcess cfg systemEnv alive (spawnOf n) detach n st
    let p2 := startList cfg systemEnv alive spawnOf detach rest p1.1
    (p2.1, p1.2 ++ p2.2)

/-- `startProcesses`: a given name starts just that name; no name starts
every defined name. -/
def startProcesses (cfg : Config) (systemEnv : Env) (alive : Nat → Bool)
    (spawnOf : String → Option Nat) (detach : Bool) (name : Option String)
    (st : SupState) : SupState × List Report :=
  match name with
  | some n => startList cfg systemEnv alive spawnOf detach [n] st
  | none => startList cfg systemEnv alive spawnOf detach (configNames cfg) st

/-- `stopProcess` (src/index.ts lines 215-236): no pid file means "not
running", a no-op.  Otherwise `process.kill(pid, SIGTERM)` is attempted;
on success the pid file is unlinked and a held RuntimeHandle is signalled
and dropped; on failure (the kill throws) the catch only reports the
error, leaving the pid file and the handle untouched. -/
def stopProcess (killOk : Nat → Bool) (name : String) (st : SupState) :
    SupState × List Report :=
  match storeLookup st.pidStore name with
  | none => (st, [Report.notRunning name])
  | some pid =>
    if killOk pid then
      let s1 := storeRemove st.pidStore name
      if st.handles.contains name then
        ({ pidStore := s1, handles := removeHandle st.handles name },
         [Report.killAttempt pid, Report.stopped name pid, Report.handleKill name])
      else
        ({ st with pidStore := s1 },
         [Report.killAttempt pid, Report.stopped name pid])
    else (st, [Report.killAttempt pid, Report.stopError name pid])

/-- The batch loop of `stopProcesses` (src/index.ts lines 207-213). -/
def stopList (killOk : Nat → Bool) :
    List String → SupState → SupState × List Report
  | [], st => (st, [])
  | n :: rest, st =>
    let p1 := stopProcess killOk n st
    let p2 := stopList killOk rest p1.1
    (p2.1, p1.2 ++ p2.2)

/-- `stopProcesses`: a given name stops just that name; no name stops
every defined name. -/
def stopProcesses (killOk : Nat → Bool) (cfg : Config) (name : Option String)
    (st : SupState) : SupState × List Report :=
  match name with
  | some n => stopList killOk [n] st
  | none => stopList killOk (configNames cfg) st

/-- The SIGINT handler (src/index.ts lines 369-373): log, stop with no
name — i.e. every defined name — then exit the invoking process (the exit
itself is outside the model). -/
def sigintHandler (cfg : Config) (killOk : Nat → Bool) (st : SupState) :
    SupState × List Report :=
  let p := stopProcesses killOk cfg none st
  (p.1, Report.shuttingDown :: p.2)

/-- The `child.on(exit)` closure installed by `startProcess`
(src/index.ts lines 174-187), with `cmdConfig`, `detach` and `name`
captured at start time: log the exit, unlink the pid file for the name
when present, delete the handle for the name, and when
`restart_on_fail` is set call `startProcess(name, detach)` again. -/
def exitHandler (cfg : Config) (systemEnv : Env) (alive : Nat → Bool)
    (spawnPid : Option Nat) (cmdConfig : CommandConfig) (detach : Bool)
    (name : String) (code : Option Int) (sig : Option String)
    (st : SupState) : SupState × List Report :=
  let st1 : SupState :=
    { pidStore := storeRemove st.pidStore name
      handles := removeHandle st.handles name }
  if cmdConfig.restart_on_fail then
    let p := startProcess cfg systemEnv alive spawnPid detach name st1
    (p.1, Report.exited name code sig :: Report.restarting name :: p.2)
  else
    (st1, [Report.exited name code sig])

/-- The body of `restartProcesses` for one name (src/index.ts lines
238-245): stop then start, not atomic. -/
def restartOne (cfg : Config) (systemEnv : Env) (alive : Nat → Bool)
    (killOk : Nat → Bool) (spawnPid : Option Nat) (detach : Bool)
    (name : String) (st : SupState) : SupState × List Report :=
  let p1 := stopProcess killOk name st
  let p2 := startProcess cfg systemEnv alive spawnPid detach name p1.1
  (p2.1, p1.2 ++ p2.2)

/-- The snapshot printed by `inspect` (src/index.ts lines 348-355). -/
structure InspectData where
  name : String
  status : String
  pid : Option Nat
  config : CommandConfig
  globalEnv : Env
  combinedEnv : Env
deriving Repr, DecidableEq

/-- `inspectProcess` (src/index.ts lines 318-358): unknown name is an
error (modelled as `none`); otherwise read the pid file, heal a stale
record, and build the snapshot whose `combinedEnv` spreads the global
env and then the process env. -/
def inspectProcess (cfg : Config) (alive : Nat → Bool) (name : String)
    (st : SupState) : Option InspectData × SupState :=
  match cfgLookup cfg name with
  | none => (none, st)
  | some cmdConfig =>
    let r :=
      match storeLookup st.pidStore name with
      | none => ("stopped", (none : Option Nat), st.pidStore)
      | some p =>
        if alive p then ("running", some p, st.pidStore)
        else ("stopped", none, storeRemove st.pidStore name)
    let combined := envOverride cfg.env cmdConfig.env
    (some { name := name, status := r.1, pid := r.2.1, config := cmdConfig,
            globalEnv := cfg.env, combinedEnv := combined },
     { st with pidStore := r.2.2 })

/-! ### Lookup and store lemmas -/

theorem envLookup_append (a b : Env) (k : String) :
    envLookup (a ++ b) k = optFirst (envLookup a k) (envLookup b k) := by
  unfold envLookup optFirst
  rw [List.find?_append]
  cases a.find? (fun p => p.1 == k) <;> simp [Option.or]

theorem resolvedEnv_lookup (systemEnv globalEnv defEnv : Env) (k : String) :
    envLookup (resolvedEnv systemEnv globalEnv defEnv) k =
      optFirst (envLookup defEnv k)
        (optFirst (envLookup globalEnv k) (envLookup systemEnv k)) := by
  unfold resolvedEnv envOverride
  rw [envLookup_append, envLookup_append]

theorem storeLookup_remove_self (s : PidStore) (n : String) :
    storeLookup (storeRemove s n) n = none := by
  unfold storeLookup storeRemove
  rw [List.find?_filter]
  simp

theorem storeLookup_remove_ne (s : PidStore) (m n : String) (h : n ≠ m) :
    storeLookup (storeRemove s m) n = storeLookup s n := by
  induction s with
  | nil => rfl
  | cons p rest ih =>
    show storeLookup (List.filter (fun q => q.1 != m) (p :: rest)) n = _
    rw [List.filter_cons]
    by_cases hpm : (p.1 != m) = true
    · rw [if_pos hpm]
      unfold storeLookup
      rw [List.find?_cons, List.find?_cons]
      cases hq : (p.1 == n) with
      | true => rfl
      | false => exact ih
    · rw [if_neg hpm]
      have hpm2 : p.1 = m := by
        simpa using hpm
      have hpn : (p.1 == n) = false := by
        simp only [beq_eq_false_iff_ne, ne_eq, hpm2]
        exact fun hmn => h hmn.symm
      unfold storeLookup
      rw [List.find?_cons, hpn]
      exact ih

theorem storeLookup_remove_none (s : PidStore) (m n : String)
    (h : storeLookup s n = none) : storeLookup (storeRemove s m) n = none := by
  by_cases hnm : n = m
  · rw [hnm]; exact storeLookup_remove_self s m
  · rw [storeLookup_remove_ne s m n hnm]; exact h

theorem stopProcess_lookup_ne (killOk : Nat → Bool) (m n : String) (st : SupState)
    (h : n ≠ m) :
    storeLookup (stopProcess killOk m st).1.pidStore n = storeLookup st.pidStore n := by
  unfold stopProcess
  cases hm : storeLookup st.pidStore m with
  | none => rfl
  | some pid =>
    by_cases hk : killOk pid = true
    · by_cases hh : st.handles.contains m = true
      · simp only [hk, hh, if_true]
        exact storeLookup_remove_ne _ _ _ h
      · simp only [hk, hh, if_true, if_false, Bool.false_eq_true]
        exact storeLookup_remove_ne _ _ _ h
    · simp only [Bool.not_eq_true] at hk
      simp only [hk, Bool.false_eq_true, if_false]

theorem stopProcess_lookup_none (killOk : Nat → Bool) (m n : String) (st : SupState)
    (h : storeLookup st.pidStore n = none) :
    storeLookup (stopProcess killOk m st).1.pidStore n = none := by
  by_cases hnm : n = m
  · subst hnm
    unfold stopProcess
    rw [h]
    exact h
  · rw [stopProcess_lookup_ne killOk m n st hnm]
    exact h

theorem stopProcess_removes_self (killOk : Nat → Bool) (n : String) (st : SupState)
    (pid : Nat) (hrec : storeLookup st.pidStore n = some pid)
    (hk : killOk pid = true) :
    storeLookup (stopProcess killOk n st).1.pidStore n = none := by
  unfold stopProcess
  simp only [hrec, hk, if_true]
  split <;> exact storeLookup_remove_self _ _

theorem stopList_lookup_none (killOk : Nat → Bool) (l : List String) (n : String)
    (st : SupState) (h : storeLookup st.pidStore n = none) :
    storeLookup (stopList killOk l st).1.pidStore n = none := by
  induction l generalizing st with
  | nil => exact h
  | cons m rest ih =>
    exact ih (stopProcess killOk m st).1 (stopProcess_lookup_none killOk m n st h)

theorem stopList_removes (killOk : Nat → Bool) (l : List String) (n : String)
    (pid : Nat) (st : SupState) (hmem : n ∈ l)
    (hrec : storeLookup st.pidStore n = some pid) (hk : killOk pid = true) :
    storeLookup (stopList killOk l st).1.pidStore n = none := by
  induction l generalizing st with
  | nil => cases hmem
  | cons m rest ih =>
    by_cases hnm : n = m
    · subst hnm
      exact stopList_lookup_none killOk rest n _
        (stopProcess_removes_self killOk n st pid hrec hk)
    · rcases List.mem_cons.mp hmem with h1 | h1
      · exact absurd h1 hnm
      · refine ih _ h1 ?_
        rw [stopProcess_lookup_ne killOk m n st hnm]
        exact hrec

/-! ### Claim theorems -/

/-- C7: `isProcessRunning` is the self-healing, idempotent liveness
query: on a name whose pid record references a dead pid, the first call
removes the record and reports not-running, and an immediate second call
reports not-running again with the record still absent and the state
unchanged. -/
theorem c7_check_and_heal (alive : Nat → Bool) (s : PidStore) (n : String)
    (pid : Nat) (hrec : storeLookup s n = some pid) (hdead : alive pid = false) :
    isProcessRunning alive s n = (false, storeRemove s n) ∧
    storeLookup (storeRemove s n) n = none ∧
    isProcessRunning alive (storeRemove s n) n = (false, storeRemove s n) := by
  have h2 : storeLookup (storeRemove s n) n = none := storeLookup_remove_self s n
  refine ⟨?_, h2, ?_⟩
  · unfold isProcessRunning
    simp only [hrec]
    rw [hdead]
    simp
  · unfold isProcessRunning
    rw [h2]

/-- C7 witness: a store holding a dead pid 4 for name a is healed once
and stays healed. -/
theorem c7_witness :
    isProcessRunning (fun _ => false) [("a", 4)] "a" = (false, []) ∧
    storeLookup ([] : PidStore) "a" = none ∧
    isProcessRunning (fun _ => false) ([] : PidStore) "a" = (false, []) :=
  c7_check_and_heal (fun _ => false) [("a", 4)] "a" 4 (by decide) (by decide)

/-- C8: stopping a name with no pid record is a reported no-op: the state
is untouched, the only report is not-running, no kill is attempted, and a
batch stop continues over the remaining names from the same state. -/
theorem c8_stop_not_running (killOk : Nat → Bool) (name : String) (st : SupState)
    (h : storeLookup st.pidStore name = none) :
    stopProcess killOk name st = (st, [Report.notRunning name]) ∧
    ∀ rest, stopList killOk (name :: rest) st =
      ((stopList killOk rest st).1,
       Report.notRunning name :: (stopList killOk rest st).2) := by
  have h1 : stopProcess killOk name st = (st, [Report.notRunning name]) := by
    unfold stopProcess
    rw [h]
  refine ⟨h1, fun rest => ?_⟩
  simp only [stopList]
  rw [h1]
  simp

/-- C8 witness: stopping the recordless name b is a no-op and the batch
goes on to stop a. -/
theorem c8_witness :
    stopProcess (fun _ => true) "b" (⟨[("a", 3)], []⟩ : SupState) =
      ((⟨[("a", 3)], []⟩ : SupState), [Report.notRunning "b"]) ∧
    stopList (fun _ => true) ["b", "a"] (⟨[("a", 3)], []⟩ : SupState) =
      ((stopList (fun _ => true) ["a"] (⟨[("a", 3)], []⟩ : SupState)).1,
       Report.notRunning "b" ::
         (stopList (fun _ => true) ["a"] (⟨[("a", 3)], []⟩ : SupState)).2) := by
  have h := c8_stop_not_running (fun _ => true) "b" (⟨[("a", 3)], []⟩ : SupState)
    (by decide)
  exact ⟨h.1, h.2 ["a"]⟩

/-- C2 counterexample: with a pid record (a, 7) and a kill that fails,
`stopProcess` leaves the record in place — the claim that the record is
still removed on signal-delivery failure is false of the code. -/
theorem c2_counterexample :
    (stopProcess (fun _ => false) "a" (⟨[("a", 7)], []⟩ : SupState)).1.pidStore =
      [("a", 7)] ∧
    Report.stopError "a" 7 ∈
      (stopProcess (fun _ => false) "a" (⟨[("a", 7)], []⟩ : SupState)).2 := by
  decide

/-- C2 amended: when the termination signal for a recorded pid fails to
be delivered, the failure is reported per name and is non-fatal (a batch
stop continues over the remaining names), but the pid record is NOT
removed — the whole state is unchanged — so an immediate second stop
re-attempts the kill and re-reports the same failure. -/
theorem c2_stop_kill_failure (killOk : Nat → Bool) (name : String) (st : SupState)
    (pid : Nat) (hrec : storeLookup st.pidStore name = some pid)
    (hfail : killOk pid = false) :
    stopProcess killOk name st =
      (st, [Report.killAttempt pid, Report.stopError name pid]) ∧
    stopProcess killOk name (stopProcess killOk name st).1 =
      (st, [Report.killAttempt pid, Report.stopError name pid]) ∧
    ∀ rest, stopList killOk (name :: rest) st =
      ((stopList killOk rest st).1,
       Report.killAttempt pid :: Report.stopError name pid ::
         (stopList killOk rest st).2) := by
  have h1 : stopProcess killOk name st =
      (st, [Report.killAttempt pid, Report.stopError name pid]) := by
    unfold stopProcess
    rw [hrec]
    simp [hfail]
  refine ⟨h1, ?_, fun rest => ?_⟩
  · rw [h1]
    exact h1
  · simp only [stopList]
    rw [h1]
    simp

/-- C2 witness: pid 7 for name a, kill refused: the record survives and a
second stop reports the same failure. -/
theorem c2_witness :
    stopProcess (fun _ => false) "a" (⟨[("a", 7)], []⟩ : SupState) =
      ((⟨[("a", 7)], []⟩ : SupState),
       [Report.killAttempt 7, Report.stopError "a" 7]) ∧
    stopProcess (fun _ => false) "a"
        (stopProcess (fun _ => false) "a" (⟨[("a", 7)], []⟩ : SupState)).1 =
      ((⟨[("a", 7)], []⟩ : SupState),
       [Report.killAttempt 7, Report.stopError "a" 7]) := by
  have h := c2_stop_kill_failure (fun _ => false) "a"
    (⟨[("a", 7)], []⟩ : SupState) 7 (by decide) (by decide)
  exact ⟨h.1, h.2.1⟩

/-- C1 counterexample: one defined name a with a pid record for pid 5
but no RuntimeHandle held in this invocation; the interrupt handler
nevertheless sends it the termination signal and removes its record, so
a name with no RuntimeHandle IS acted upon. -/
theorem c1_counterexample :
    ((⟨[("a", 5)], []⟩ : SupState).handles.contains "a" = false) ∧
    storeLookup (sigintHandler (⟨[], [("a", ⟨"run", [], [], false⟩)]⟩ : Config)
      (fun _ => true) (⟨[("a", 5)], []⟩ : SupState)).1.pidStore "a" = none ∧
    Report.killAttempt 5 ∈
      (sigintHandler (⟨[], [("a", ⟨"run", [], [], false⟩)]⟩ : Config)
        (fun _ => true) (⟨[("a", 5)], []⟩ : SupState)).2 := by
  decide

/-- C1 amended: the interrupt handler invokes Stop for every name defined
in the configuration, not only for the names held as a RuntimeHandle: any
defined name with a pid record whose kill succeeds has its record removed
by the handler, even when this invocation holds no RuntimeHandle for it
(names with no record are reported not-running, a no-op). -/
theorem c1_sigint_stops_all_defined (cfg : Config) (killOk : Nat → Bool)
    (st : SupState) (n : String) (pid : Nat)
    (hmem : n ∈ configNames cfg)
    (hnoh : st.handles.contains n = false)
    (hrec : storeLookup st.pidStore n = some pid)
    (hk : killOk pid = true) :
    storeLookup (sigintHandler cfg killOk st).1.pidStore n = none := by
  unfold sigintHandler stopProcesses
  exact stopList_removes killOk (configNames cfg) n pid st hmem hrec hk

/-- C1 witness: name b is second in the configuration, has pid record 9
and no handle; the interrupt handler removes its record. -/
theorem c1_witness :
    storeLookup (sigintHandler
      (⟨[], [("a", ⟨"run", [], [], false⟩), ("b", ⟨"srv", [], [], false⟩)]⟩ : Config)
      (fun _ => true) (⟨[("b", 9)], []⟩ : SupState)).1.pidStore "b" = none :=
  c1_sigint_stops_all_defined
    (⟨[], [("a", ⟨"run", [], [], false⟩), ("b", ⟨"srv", [], [], false⟩)]⟩ : Config)
    (fun _ => true) (⟨[("b", 9)], []⟩ : SupState) "b" 9
    (by decide) (by decide) (by decide) (by decide)

/-- C3 counterexample: with an empty global env and empty process env,
the merge used at start carries the system variable SYSVAR, but the
combinedEnv in the inspect snapshot does not contain it — inspect does
not report the fully merged (three-layer) environment. -/
theorem c3_counterexample :
    envLookup (resolvedEnv [("SYSVAR", "1")] [] []) "SYSVAR" = some "1" ∧
    ((inspectProcess (⟨[], [("a", ⟨"run", [], [], false⟩)]⟩ : Config)
        (fun _ => false) "a" (⟨[], []⟩ : SupState)).1.map
      (fun d => envLookup d.combinedEnv "SYSVAR")) = some none := by
  decide

/-- C3 amended: `inspectProcess` on a known name returns a snapshot whose
combinedEnv merges only two layers — the global environment overridden by
the process-level env — omitting the system environment (its globalEnv
field is the global environment verbatim). -/
theorem c3_inspect_env_two_layers (cfg : Config) (alive : Nat → Bool)
    (name : String) (st : SupState) (cmdConfig : CommandConfig)
    (hc : cfgLookup cfg name = some cmdConfig) :
    ∃ d, (inspectProcess cfg alive name st).1 = some d ∧
      d.globalEnv = cfg.env ∧
      ∀ k, envLookup d.combinedEnv k =
        optFirst (envLookup cmdConfig.env k) (envLookup cfg.env k) := by
  unfold inspectProcess
  rw [hc]
  exact ⟨_, rfl, rfl, fun k => envLookup_append cmdConfig.env cfg.env k⟩

/-- C3 witness: global env (G, g), process env (P, p): the snapshot
reports exactly the two-layer merge. -/
theorem c3_witness :
    ∃ d, (inspectProcess
        (⟨[("G", "g")], [("a", ⟨"run", [], [("P", "p")], false⟩)]⟩ : Config)
        (fun _ => false) "a" (⟨[], []⟩ : SupState)).1 = some d ∧
      d.globalEnv = [("G", "g")] ∧
      ∀ k, envLookup d.combinedEnv k =
        optFirst (envLookup [("P", "p")] k) (envLookup [("G", "g")] k) :=
  c3_inspect_env_two_layers
    (⟨[("G", "g")], [("a", ⟨"run", [], [("P", "p")], false⟩)]⟩ : Config)
    (fun _ => false) "a" (⟨[], []⟩ : SupState) ⟨"run", [], [("P", "p")], false⟩
    (by decide)

/-- C5: the environment merge used at start is key-wise last-write-wins
over the three layers — the process env wins over the global env, which
wins over the system env — and the concrete template resolves with the
empty string substituted for the absent variable: for system (A, 1),
global (A, 2), (B, x), process (B, y), the argument resolves to 2-y-. -/
theorem c5_env_resolution :
    (∀ (systemEnv globalEnv defEnv : Env) (k : String),
      envLookup (resolvedEnv systemEnv globalEnv defEnv) k =
        optFirst (envLookup defEnv k)
          (optFirst (envLookup globalEnv k) (envLookup systemEnv k))) ∧
    substituteArg (resolvedEnv [("A", "1")] [("A", "2"), ("B", "x")] [("B", "y")])
      "$\x7bA\x7d-$\x7bB\x7d-$\x7bC\x7d" = "2-y-" :=
  ⟨resolvedEnv_lookup, by decide⟩

/-- C6: starting a known name that already holds a RuntimeHandle or has a
live pid record is a rejected no-op: the state (pid record included) is
unchanged, the only report is already-running (so nothing is spawned),
and a batch start continues over the remaining names from the same
state. -/
theorem c6_start_already_running (cfg : Config) (systemEnv : Env)
    (alive : Nat → Bool) (detach : Bool) (name : String) (st : SupState)
    (cmdConfig : CommandConfig)
    (hc : cfgLookup cfg name = some cmdConfig)
    (h : st.handles.contains name = true ∨
         ∃ pid, storeLookup st.pidStore name = some pid ∧ alive pid = true) :
    (∀ spawnPid, startProcess cfg systemEnv alive spawnPid detach name st =
        (st, [Report.alreadyRunning name])) ∧
    ∀ spawnOf rest,
      startList cfg systemEnv alive spawnOf detach (name :: rest) st =
        ((startList cfg systemEnv alive spawnOf detach rest st).1,
         Report.alreadyRunning name ::
           (startList cfg systemEnv alive spawnOf detach rest st).2) := by
  have hsingle : ∀ spawnPid,
      startProcess cfg systemEnv alive spawnPid detach name st =
        (st, [Report.alreadyRunning name]) := by
    intro spawnPid
    unfold startProcess
    simp only [hc]
    rcases h with hh | ⟨pid, hrec, halive⟩
    · rw [if_pos hh]
    · by_cases hh : st.handles.contains name = true
      · rw [if_pos hh]
      · rw [if_neg hh]
        have hipr : isProcessRunning alive st.pidStore name = (true, st.pidStore) := by
          unfold isProcessRunning
          simp only [hrec]
          rw [halive]
          simp
        rw [hipr]
  refine ⟨hsingle, fun spawnOf rest => ?_⟩
  simp only [startList]
  rw [hsingle (spawnOf name)]
  simp

/-- C6 witness: name a has a live pid record (pid 5); a start with a
fresh spawn pid available is still the rejected no-op, and the batch
start over a then b goes on to b from the unchanged state. -/
theorem c6_witness :
    startProcess
        (⟨[], [("a", ⟨"run", [], [], false⟩), ("b", ⟨"srv", [], [], false⟩)]⟩ : Config)
        [] (fun _ => true) (some 6) false "a" (⟨[("a", 5)], []⟩ : SupState) =
      ((⟨[("a", 5)], []⟩ : SupState), [Report.alreadyRunning "a"]) ∧
    startList
        (⟨[], [("a", ⟨"run", [], [], false⟩), ("b", ⟨"srv", [], [], false⟩)]⟩ : Config)
        [] (fun _ => true) (fun _ => some 6) false ["a", "b"]
        (⟨[("a", 5)], []⟩ : SupState) =
      ((startList
          (⟨[], [("a", ⟨"run", [], [], false⟩), ("b", ⟨"srv", [], [], false⟩)]⟩ : Config)
          [] (fun _ => true) (fun _ => some 6) false ["b"]
          (⟨[("a", 5)], []⟩ : SupState)).1,
       Report.alreadyRunning "a" ::
         (startList
           (⟨[], [("a", ⟨"run", [], [], false⟩), ("b", ⟨"srv", [], [], false⟩)]⟩ : Config)
           [] (fun _ => true) (fun _ => some 6) false ["b"]
           (⟨[("a", 5)], []⟩ : SupState)).2) := by
  have h := c6_start_already_running
    (⟨[], [("a", ⟨"run", [], [], false⟩), ("b", ⟨"srv", [], [], false⟩)]⟩ : Config)
    [] (fun _ => true) false "a" (⟨[("a", 5)], []⟩ : SupState)
    ⟨"run", [], [], false⟩ (by decide) (Or.inr ⟨5, by decide, by decide⟩)
  exact ⟨h.1 (some 6), h.2 (fun _ => some 6) ["b"]⟩

/-- C10: a spawn that yields no pid reports the start failure and writes
no pid record, yet the RuntimeHandle for the name was already recorded,
so any subsequent start of the same name in this invocation is rejected
as already-running and spawns nothing, although no pid record exists. -/
theorem c10_spawn_failure_then_blocked (cfg : Config) (systemEnv : Env)
    (alive : Nat → Bool) (detach : Bool) (name : String) (st : SupState)
    (cmdConfig : CommandConfig)
    (hc : cfgLookup cfg name = some cmdConfig)
    (hnh : st.handles.contains name = false)
    (hnr : storeLookup st.pidStore name = none) :
    (startProcess cfg systemEnv alive none detach name st).1.handles.contains name
      = true ∧
    storeLookup (startProcess cfg systemEnv alive none detach name st).1.pidStore
      name = none ∧
    Report.startFailed name ∈
      (startProcess cfg systemEnv alive none detach name st).2 ∧
    ∀ spawnPid2,
      startProcess cfg systemEnv alive spawnPid2 detach name
          (startProcess cfg systemEnv alive none detach name st).1 =
        ((startProcess cfg systemEnv alive none detach name st).1,
         [Report.alreadyRunning name]) := by
  have hipr : isProcessRunning alive st.pidStore name = (false, st.pidStore) := by
    unfold isProcessRunning
    simp only [hnr]
  have hres : startProcess cfg systemEnv alive none detach name st =
      ({ pidStore := st.pidStore, handles := addHandle st.handles name },
       [Report.spawned cmdConfig.command
          (substitutedArgs (resolvedEnv systemEnv cfg.env cmdConfig.env)
            cmdConfig.args) detach,
        Report.startFailed name]) := by
    unfold startProcess
    simp only [hc]
    rw [if_neg (by rw [hnh]; decide), hipr]
  rw [hres]
  have hcont : (addHandle st.handles name).contains name = true := by
    simp [addHandle]
  refine ⟨hcont, hnr, by simp, fun spawnPid2 => ?_⟩
  unfold startProcess
  simp only [hc]
  rw [if_pos hcont]

/-- C10 witness: spawning a with no pid leaves a handle and no record;
a second start (with a pid now available) is rejected and spawns
nothing. -/
theorem c10_witness :
    (startProcess (⟨[], [("a", ⟨"run", [], [], false⟩)]⟩ : Config) []
        (fun _ => false) none false "a"
        (⟨[], []⟩ : SupState)).1.handles.contains "a" = true ∧
    storeLookup (startProcess (⟨[], [("a", ⟨"run", [], [], false⟩)]⟩ : Config) []
        (fun _ => false) none false "a"
        (⟨[], []⟩ : SupState)).1.pidStore "a" = none ∧
    Report.startFailed "a" ∈
      (startProcess (⟨[], [("a", ⟨"run", [], [], false⟩)]⟩ : Config) []
        (fun _ => false) none false "a" (⟨[], []⟩ : SupState)).2 ∧
    startProcess (⟨[], [("a", ⟨"run", [], [], false⟩)]⟩ : Config) []
        (fun _ => false) (some 8) false "a"
        (startProcess (⟨[], [("a", ⟨"run", [], [], false⟩)]⟩ : Config) []
          (fun _ => false) none false "a" (⟨[], []⟩ : SupState)).1 =
      ((startProcess (⟨[], [("a", ⟨"run", [], [], false⟩)]⟩ : Config) []
          (fun _ => false) none false "a" (⟨[], []⟩ : SupState)).1,
       [Report.alreadyRunning "a"]) := by
  have h := c10_spawn_failure_then_blocked
    (⟨[], [("a", ⟨"run", [], [], false⟩)]⟩ : Config) [] (fun _ => false) false "a"
    (⟨[], []⟩ : SupState) ⟨"run", [], [], false⟩ (by decide) (by decide) (by decide)
  exact ⟨h.1, h.2.1, h.2.2.1, h.2.2.2 (some 8)⟩

/-- C4: when restart_on_fail is set, the observed exit of the supervised
process removes the pid record, drops the RuntimeHandle, and immediately
re-enters start for the name with the same detach mode, through the same
start path and with no other precondition; the resulting state is the
same whatever exit code or signal was observed (unconditional restart). -/
theorem c4_restart_on_exit (cfg : Config) (systemEnv : Env) (alive : Nat → Bool)
    (spawnPid : Option Nat) (cmdConfig : CommandConfig) (detach : Bool)
    (name : String) (code : Option Int) (sig : Option String) (st : SupState)
    (hr : cmdConfig.restart_on_fail = true) :
    exitHandler cfg systemEnv alive spawnPid cmdConfig detach name code sig st =
      ((startProcess cfg systemEnv alive spawnPid detach name
          (⟨storeRemove st.pidStore name, removeHandle st.handles name⟩ : SupState)).1,
       Report.exited name code sig :: Report.restarting name ::
         (startProcess cfg systemEnv alive spawnPid detach name
           (⟨storeRemove st.pidStore name,
             removeHandle st.handles name⟩ : SupState)).2) ∧
    (exitHandler cfg systemEnv alive spawnPid cmdConfig detach name code sig st).1 =
      (exitHandler cfg systemEnv alive spawnPid cmdConfig detach name none none
        st).1 := by
  have h1 : ∀ (c : Option Int) (s : Option String),
      exitHandler cfg systemEnv alive spawnPid cmdConfig detach name c s st =
        ((startProcess cfg systemEnv alive spawnPid detach name
            (⟨storeRemove st.pidStore name,
              removeHandle st.handles name⟩ : SupState)).1,
         Report.exited name c s :: Report.restarting name ::
           (startProcess cfg systemEnv alive spawnPid detach name
             (⟨storeRemove st.pidStore name,
               removeHandle st.handles name⟩ : SupState)).2) := by
    intro c s
    simp only [exitHandler]
    rw [if_pos hr]
  refine ⟨h1 code sig, ?_⟩
  rw [h1 code sig, h1 none none]

/-- C4 witness: name a, restart_on_fail true, exits with code 1 while
holding record (a, 5) and its handle; the handler removes both and
re-runs the start path with the original detach mode (true), spawning
pid 6 and writing its record. -/
theorem c4_witness :
    exitHandler (⟨[], [("a", ⟨"run", [], [], true⟩)]⟩ : Config) []
        (fun _ => false) (some 6) ⟨"run", [], [], true⟩ true "a" (some 1) none
        (⟨[("a", 5)], ["a"]⟩ : SupState) =
      ((startProcess (⟨[], [("a", ⟨"run", [], [], true⟩)]⟩ : Config) []
          (fun _ => false) (some 6) true "a"
          (⟨storeRemove [("a", 5)] "a", removeHandle ["a"] "a"⟩ : SupState)).1,
       Report.exited "a" (some 1) none :: Report.restarting "a" ::
         (startProcess (⟨[], [("a", ⟨"run", [], [], true⟩)]⟩ : Config) []
           (fun _ => false) (some 6) true "a"
           (⟨storeRemove [("a", 5)] "a",
             removeHandle ["a"] "a"⟩ : SupState)).2) ∧
    (exitHandler (⟨[], [("a", ⟨"run", [], [], true⟩)]⟩ : Config) []
        (fun _ => false) (some 6) ⟨"run", [], [], true⟩ true "a" (some 1) none
        (⟨[("a", 5)], ["a"]⟩ : SupState)).1 =
      (exitHandler (⟨[], [("a", ⟨"run", [], [], true⟩)]⟩ : Config) []
        (fun _ => false) (some 6) ⟨"run", [], [], true⟩ true "a" none none
        (⟨[("a", 5)], ["a"]⟩ : SupState)).1 :=
  c4_restart_on_exit (⟨[], [("a", ⟨"run", [], [], true⟩)]⟩ : Config) []
    (fun _ => false) (some 6) ⟨"run", [], [], true⟩ true "a" (some 1) none
    (⟨[("a", 5)], ["a"]⟩ : SupState) (by decide)

/-- C9: the exit handler deletes the pid record keyed on the name alone:
whatever pid the record currently holds — in particular a fresh record
written by a newer instance of the same name whose pid is still alive —
the record and the handle for the name are removed when the old
instance's exit is observed (restart_on_fail false isolates the
deletion). -/
theorem c9_exit_removes_by_name (cfg : Config) (systemEnv : Env)
    (alive : Nat → Bool) (spawnPid : Option Nat) (cmdConfig : CommandConfig)
    (detach : Bool) (name : String) (code : Option Int) (sig : Option String)
    (st : SupState) (freshPid : Nat)
    (hr : cmdConfig.restart_on_fail = false)
    (hfresh : storeLookup st.pidStore name = some freshPid)
    (halive : alive freshPid = true) :
    exitHandler cfg systemEnv alive spawnPid cmdConfig detach name code sig st =
      ((⟨storeRemove st.pidStore name, removeHandle st.handles name⟩ : SupState),
       [Report.exited name code sig]) ∧
    storeLookup (exitHandler cfg systemEnv alive spawnPid cmdConfig detach name
        code sig st).1.pidStore name = none := by
  have h1 : exitHandler cfg systemEnv alive spawnPid cmdConfig detach name code
      sig st =
      ((⟨storeRemove st.pidStore name, removeHandle st.handles name⟩ : SupState),
       [Report.exited name code sig]) := by
    simp only [exitHandler]
    rw [if_neg (by simp [hr])]
  refine ⟨h1, ?_⟩
  rw [h1]
  exact storeLookup_remove_self _ _

/-- C9 witness: after a restart of a wrote the fresh record (a, 42) with
pid 42 alive, the old instance's exit event still deletes that record
(and the fresh handle). -/
theorem c9_witness :
    exitHandler (⟨[], [("a", ⟨"run", [], [], false⟩)]⟩ : Config) []
        (fun _ => true) none ⟨"run", [], [], false⟩ false "a" (some 0) none
        (⟨[("a", 42)], ["a"]⟩ : SupState) =
      ((⟨storeRemove [("a", 42)] "a", removeHandle ["a"] "a"⟩ : SupState),
       [Report.exited "a" (some 0) none]) ∧
    storeLookup (exitHandler (⟨[], [("a", ⟨"run", [], [], false⟩)]⟩ : Config) []
        (fun _ => true) none ⟨"run", [], [], false⟩ false "a" (some 0) none
        (⟨[("a", 42)], ["a"]⟩ : SupState)).1.pidStore "a" = none :=
  c9_exit_removes_by_name (⟨[], [("a", ⟨"run", [], [], false⟩)]⟩ : Config) []
    (fun _ => true) none ⟨"run", [], [], false⟩ false "a" (some 0) none
    (⟨[("a", 42)], ["a"]⟩ : SupState) 42 (by decide) (by decide) (by decide)

end Pocker
